import Mathlib

/-!
Shallow embedding of the intent-routing and response-composition engine of
the Elgiganten chat-assistant repository.

The embedded code is `src/conversation_manager.py` (`handle_conversation`,
`clean_html`, the keyword tables and the order-number regex) together with
the backend helpers it calls from `src/knowledge_base.py`
(`_get_admin_api_headers`, `get_shopify_page_by_handle`,
`track_order_in_shopify`, `fetch_shopify_recommendations`).

Modelling conventions:
* Python strings are Lean `String`s; the helpers `pyLower`, `pyStrip`,
  `containsSub`, `pyStr` mirror `str.lower()`, `str.strip()`, the `in`
  substring operator and `f"{x}"` rendering of an optional value.
  (`str.lower()` is modelled on ASCII letters, which covers every keyword
  comparison the code performs; the Swedish keywords are already lower-case.)
* Network effects are an explicit environment `Env`: the configuration
  variables `SHOPIFY_STORE_URL` / `SHOPIFY_ADMIN_API_TOKEN` (as
  `Option String`, with Python falsiness for `None` and `""`), the parsed
  JSON payloads the three HTTP endpoints would deliver (`Except Unit _`,
  where `.error` stands for a raised `requests.RequestException`, covering
  both connection failures and `raise_for_status`), the image scraper and
  the two language-model placeholders.  `get_conversational_response` is
  modelled as fallible because `handle_conversation` wraps it in
  `try/except`; `answer_question_from_text` is modelled as a total oracle,
  like the pure placeholder in the source.
* A Python exception that escapes a function is `Except.error`; the only
  exception type the embedded paths can raise uncaught is the `ValueError`
  of `_get_admin_api_headers`, modelled by `PyErr.valueError`.
-/

namespace Elg

/-- Python `str.lower()` restricted to ASCII case mapping. -/
def pyLower (s : String) : String := ⟨s.data.map Char.toLower⟩

/-- The characters Python `str.strip()` removes by default. -/
def pySpace (c : Char) : Bool :=
  c = ' ' || c = '\t' || c = '\n' || c = '\r' || c = '\x0b' || c = '\x0c'

/-- Python `str.strip()`: drop leading and trailing whitespace. -/
def pyStrip (s : String) : String :=
  ⟨((s.data.dropWhile pySpace).reverse.dropWhile pySpace).reverse⟩

/-- Whether the first list is a prefix of the second. -/
def isPre : List Char → List Char → Bool
  | [], _ => true
  | _ :: _, [] => false
  | a :: as, b :: bs => a = b && isPre as bs

/-- Whether `sub` occurs as a contiguous sublist of the second argument. -/
def infixAt (sub : List Char) : List Char → Bool
  | [] => isPre sub []
  | c :: rest => isPre sub (c :: rest) || infixAt sub rest

/-- Python `sub in hay` (substring containment). -/
def containsSub (hay sub : String) : Bool := infixAt sub.data hay.data

/-- Python f-string rendering of an `Optional[str]` value. -/
def pyStr : Option String → String
  | none => "None"
  | some s => s

/-- Python truthiness of an `Optional[str]` value (`None` and `""` are falsy). -/
def pyTruthy : Option String → Bool
  | none => false
  | some s => !(s = "")

/-- `handle.replace('-', ' ')` (single-character replacement). -/
def dashToSpace (s : String) : String :=
  ⟨s.data.map fun c => if c = '-' then ' ' else c⟩

/-! ### Keyword tables (conversation_manager.py, module level) -/

def GREETING_KEYWORDS : List String :=
  ["hej", "hi", "hello", "hey", "tja", "good morning", "good evening"]

def ORDER_TRACKING_KEYWORDS : List String :=
  ["track", "order", "spåra", "beställning", "where is my order", "status"]

def POLICY_KEYWORDS : List String :=
  ["policy", "return", "retur", "shipping", "frakt", "terms", "rules", "villkor"]

def RECOMMENDATION_KEYWORDS : List String :=
  ["recommend", "rekommendera", "suggest", "product", "produkt", "looking for"]

/-- `any(keyword in query_lower for keyword in KEYWORDS)`. -/
def anyKeyword (kws : List String) (s : String) : Bool :=
  kws.any fun k => containsSub s k

/-! ### Data model -/

/-- One entry of the `fulfillments` array of a Shopify order payload. -/
structure Fulfillment where
  tracking_url : Option String
deriving DecidableEq, Repr

/-- A Shopify order as read by `track_order_in_shopify` (which only reads
`fulfillment_status`; the `fulfillments` array with its tracking URL is part
of the payload but is never read by this function). -/
structure Order where
  fulfillment_status : Option String
  fulfillments : List Fulfillment
deriving DecidableEq, Repr

/-- A Shopify page as read by `get_shopify_page_by_handle`
(`page.get("title", "")`, `page.get("body_html", "")`). -/
structure Page where
  title : Option String
  body_html : Option String
deriving DecidableEq, Repr

/-- A Shopify product as read by `fetch_shopify_recommendations`
(`prod.get("title")`, `prod.get("handle")`). -/
structure BackendProduct where
  title : Option String
  handle : Option String
deriving DecidableEq, Repr

/-- One record of the list built by `fetch_shopify_recommendations`. -/
structure Recommendation where
  title : Option String
  product_url : String
deriving DecidableEq, Repr

/-- A product card of the final payload. -/
structure ProductCard where
  title : Option String
  product_url : String
  image_url : String
deriving DecidableEq, Repr

/-- The `{"text": ..., "products": [...]}` payload `handle_conversation`
returns. -/
structure ChatResponse where
  text : String
  products : List ProductCard
deriving DecidableEq, Repr

/-- The Python exceptions that can escape the embedded call paths. -/
inductive PyErr where
  | valueError
deriving DecidableEq, Repr

/-- The process environment and the behaviour of the external collaborators
during one call: configuration variables, the parsed JSON the three HTTP
requests would deliver (`.error` = a raised `requests.RequestException`),
the image scraper, and the two language-model placeholders. -/
structure Env where
  storeUrl : Option String
  adminToken : Option String
  ordersHttp : Except Unit (List Order)
  pagesHttp : Except Unit (List Page)
  productsHttp : Except Unit (List BackendProduct)
  scrape : String → Option String
  conv : String → Except Unit String
  answerQ : String → String → String

/-! ### knowledge_base.py -/

/-- `_get_admin_api_headers`: raises `ValueError` when
`SHOPIFY_ADMIN_API_TOKEN` is not set (falsy). -/
def get_admin_api_headers (env : Env) : Except PyErr Unit :=
  if !pyTruthy env.adminToken then .error .valueError else .ok ()

/-- The title-search loop of `get_shopify_page_by_handle`: first page whose
lower-cased title contains the topic, returning its `body_html`. -/
def findPageByTopic (topic : String) : List Page → Option String
  | [] => none
  | page :: rest =>
    if containsSub (pyLower (page.title.getD "")) topic then some (page.body_html.getD "")
    else findPageByTopic topic rest

/-- `get_shopify_page_by_handle`: returns `None` when the store URL is
unset, on any HTTP failure, on the `ValueError` from the header helper
(this function has a catch-all `except Exception`), or when no page title
contains the topic. -/
def get_shopify_page_by_handle (env : Env) (topic : String) : Option String :=
  if !pyTruthy env.storeUrl then none
  else
    match get_admin_api_headers env with
    | .error _ => none
    | .ok _ =>
      match env.pagesHttp with
      | .error _ => none
      | .ok pages => findPageByTopic topic pages

/-- `track_order_in_shopify`: maps the first matching order's fulfillment
status to a canned sentence.  Its `try` block catches only
`requests.RequestException`, so the header helper's `ValueError`
propagates. -/
def track_order_in_shopify (env : Env) (order_number : String) : Except PyErr String :=
  if !pyTruthy env.storeUrl then
    .ok "I'm sorry, my connection to the store is currently unavailable."
  else
    match get_admin_api_headers env with
    | .error e => .error e
    | .ok _ =>
      match env.ordersHttp with
      | .error _ =>
        .ok "I'm having trouble accessing order information right now. Please try again in a moment."
      | .ok orders =>
        match orders with
        | [] =>
          .ok ("I couldn't find any order with the number #" ++ order_number ++
            ". Please double-check the number.")
        | order :: _ =>
          match order.fulfillment_status with
          | none =>
            .ok ("Order #" ++ order_number ++ " has been placed, but is not yet fulfilled.")
          | some st =>
            if st = "fulfilled" then
              .ok ("Great news! Order #" ++ order_number ++ " has been fulfilled and is on its way.")
            else if st = "partial" then
              .ok ("Good news! Part of your order #" ++ order_number ++ " has been shipped.")
            else
              .ok ("The current status for order #" ++ order_number ++ " is: " ++ st ++ ".")

/-- `fetch_shopify_recommendations`: builds title/URL records from the
product listing.  Its `try` block also catches only
`requests.RequestException`, so the header helper's `ValueError`
propagates. -/
def fetch_shopify_recommendations (env : Env) : Except PyErr (List Recommendation) :=
  if !pyTruthy env.storeUrl then .ok []
  else
    match get_admin_api_headers env with
    | .error e => .error e
    | .ok _ =>
      match env.productsHttp with
      | .error _ => .ok []
      | .ok prods =>
        .ok (prods.map fun p =>
          { title := p.title
            product_url :=
              "https://" ++ pyStr env.storeUrl ++ "/products/" ++ pyStr p.handle })

/-! ### conversation_manager.py helpers -/

/-- The lazy tag scan of `re.sub('<[^<]+?>', '', ...)` after the opening
`<` and its first `[^<]` character: consume `[^<]` characters up to the
first `>`; a `<` before any `>` means no match at this position. -/
def tagBodyGo : List Char → Option (List Char)
  | [] => none
  | c :: rest =>
    if c = '>' then some rest
    else if c = '<' then none
    else tagBodyGo rest

/-- Match `[^<]+?>` (at least one non-`<` character, lazily, then `>`)
against the characters after an opening `<`; returns the remainder after
the match. -/
def tagBody : List Char → Option (List Char)
  | [] => none
  | c :: rest => if c = '<' then none else tagBodyGo rest

theorem tagBodyGo_length : ∀ l r, tagBodyGo l = some r → r.length < l.length := by
  intro l
  induction l with
  | nil => intro r h; simp [tagBodyGo] at h
  | cons c rest ih =>
    intro r h
    simp only [tagBodyGo] at h
    split at h
    · injection h with h
      subst h
      simp only [List.length_cons]
      omega
    · split at h
      · simp at h
      · have := ih r h
        simp only [List.length_cons]
        omega

theorem tagBody_length : ∀ l r, tagBody l = some r → r.length < l.length := by
  intro l r h
  match l with
  | [] => simp [tagBody] at h
  | c :: rest =>
    simp only [tagBody] at h
    split at h
    · simp at h
    · have := tagBodyGo_length rest r h
      simp only [List.length_cons]
      omega

/-- The repeated non-overlapping substitution `re.sub('<[^<]+?>', '', s)`
over the character list. -/
def subTags : List Char → List Char
  | [] => []
  | c :: rest =>
    if c = '<' then
      match h : tagBody rest with
      | some rest' => subTags rest'
      | none => c :: subTags rest
    else c :: subTags rest
termination_by l => l.length
decreasing_by
  · have := tagBody_length rest rest' h
    simp only [List.length_cons]
    omega
  · simp only [List.length_cons]; omega
  · simp only [List.length_cons]; omega

/-- `clean_html`: strip tags, then `str.strip()`. -/
def cleanHtml (raw_html : String) : String := pyStrip ⟨subTags raw_html.data⟩

/-- `re.search(r'(\d{4,})', query)`: at each position, leftmost first, try
to match a maximal (greedy) run of at least four decimal digits. -/
def reSearchDigits4 : List Char → Option (List Char)
  | [] => none
  | c :: rest =>
    if 4 ≤ ((c :: rest).takeWhile Char.isDigit).length then
      some ((c :: rest).takeWhile Char.isDigit)
    else reSearchDigits4 rest

/-- The order-number extraction of the order-tracking branch: the first run
of four or more consecutive decimal digits of the raw query, if any. -/
def extractOrderNumber (query : String) : Option String :=
  (reSearchDigits4 query.data).map fun l => ⟨l⟩

/-- The placeholder `get_conversational_response` of the source. -/
def getConversationalResponse (query : String) : String :=
  if containsSub query "how are you" then
    "I'm doing great, thanks for asking! How can I help you find something amazing today?"
  else
    "That's an interesting question! While I ponder that, is there anything I can help you find in the store?"

/-- The placeholder `answer_question_from_text` of the source:
`". ".join(document_text.split('.')[:2])` wrapped in a fixed frame. -/
def answerQuestionFromText (document_text question : String) : String :=
  let summary := String.intercalate ". " ((document_text.splitOn ".").take 2)
  "According to our Policy, " ++ summary ++ "."

/-! ### conversation_manager.py: handle_conversation -/

/-- `query.lower().strip()`. -/
def normalizeQuery (q : String) : String := pyStrip (pyLower q)

/-- The topic selection of the policy branch. -/
def resolvePolicyHandle (query_lower : String) : String :=
  if containsSub query_lower "shipping" || containsSub query_lower "frakt" then "shipping-policy"
  else "return-policy"

/-- Section 5 of `handle_conversation`: delegate to the conversational AI,
catching any failure and returning the canned apology. -/
def fallbackConversation (env : Env) (query : String) : Except PyErr ChatResponse :=
  match env.conv query with
  | .ok t => .ok ⟨t, []⟩
  | .error _ =>
    .ok ⟨"I'm sorry, I don't have information on that right now. Could I help with a product recommendation or a policy question instead?", []⟩

/-- `handle_conversation(query, store_name)`.  The Python locals
`query_lower`, `handle`, `page_content_html` and `image_url` are inlined
(each is bound once and used unchanged). -/
def handle_conversation (env : Env) (query store_name : String) : Except PyErr ChatResponse :=
  if anyKeyword GREETING_KEYWORDS (normalizeQuery query) then
    .ok ⟨"Hello! I'm V, your personal shopping assistant. What can I help you find today?", []⟩
  else if anyKeyword ORDER_TRACKING_KEYWORDS (normalizeQuery query) then
    match extractOrderNumber query with
    | some order_id =>
      match track_order_in_shopify env order_id with
      | .ok status => .ok ⟨status, []⟩
      | .error e => .error e
    | none => .ok ⟨"I can certainly help with that! What is your order number?", []⟩
  else if anyKeyword POLICY_KEYWORDS (normalizeQuery query) then
    if pyTruthy (get_shopify_page_by_handle env (resolvePolicyHandle (normalizeQuery query))) then
      .ok ⟨env.answerQ
          (cleanHtml ((get_shopify_page_by_handle env
            (resolvePolicyHandle (normalizeQuery query))).getD "")) query, []⟩
    else
      .ok ⟨"I couldn't find the specific details for our " ++
          dashToSpace (resolvePolicyHandle (normalizeQuery query)) ++ ".", []⟩
  else if anyKeyword RECOMMENDATION_KEYWORDS (normalizeQuery query) then
    match fetch_shopify_recommendations env with
    | .error e => .error e
    | .ok [] => fallbackConversation env query
    | .ok (product :: _) =>
      .ok ⟨"I have a great suggestion for you! The " ++ pyStr product.title ++
          " is very popular. It might be just what you're looking for.",
        [{ title := product.title
           product_url := product.product_url
           image_url := (env.scrape product.product_url).getD "" }]⟩
  else fallbackConversation env query

/-! ### Specification-side predicates (used only in theorem statements) -/

/-- No position of the list starts a run of four or more consecutive
decimal digits. -/
def allRunsShort : List Char → Bool
  | [] => true
  | c :: rest =>
    decide (((c :: rest).takeWhile Char.isDigit).length < 4) && allRunsShort rest

/-- The list is empty or its last character is not a decimal digit. -/
def lastNonDigit (l : List Char) : Bool :=
  match l.getLast? with
  | none => true
  | some c => !c.isDigit

/-- A character allowed inside a tag body: neither an opening nor a closing
angle bracket. -/
def tagChar (c : Char) : Bool := !(c = '<' || c = '>')

/-! ### Concrete environments for witnesses and counterexamples -/

/-- Both configuration variables set; one fulfilled order whose backend
payload carries a tracking URL; no pages; no products; the oracles are the
source's placeholder functions. -/
def envBase : Env where
  storeUrl := some "shop.example"
  adminToken := some "admintok"
  ordersHttp := .ok [⟨some "fulfilled", [⟨some "https://track.example/10234"⟩]⟩]
  pagesHttp := .ok []
  productsHttp := .ok []
  scrape := fun _ => none
  conv := fun q => .ok (getConversationalResponse q)
  answerQ := fun d q => answerQuestionFromText d q

/-- Store URL set but admin API token missing. -/
def envNoToken : Env := { envBase with adminToken := none }

/-- A counterexample environment whose conversational oracle answers with a
fixed marker `A`. -/
def envOracleA : Env := { envBase with conv := fun _ => .ok "oracle reply A" }

/-- A counterexample environment whose conversational oracle answers with a
fixed marker `B`. -/
def envOracleB : Env := { envBase with conv := fun _ => .ok "oracle reply B" }

/-! ### Helper lemmas -/

theorem data_ne_nil_append (a b : String) (h : a.data ≠ []) : (a ++ b).data ≠ [] := by
  rw [String.data_append]
  intro hc
  exact h (List.append_eq_nil.mp hc).1

theorem append_ne_empty_left (a b : String) (h : a.data ≠ []) : a ++ b ≠ "" := by
  intro hc
  apply h
  have hd := congrArg String.data hc
  rw [String.data_append] at hd
  exact (List.append_eq_nil.mp hd).1

theorem takeWhile_append_all (p : Char → Bool) (l m : List Char) (h : l.all p = true) :
    (l ++ m).takeWhile p = l ++ m.takeWhile p := by
  induction l with
  | nil => simp
  | cons c rest ih =>
    simp only [List.all_cons, Bool.and_eq_true] at h
    simp [List.takeWhile_cons, h.1, ih h.2]

theorem takeWhile_append_stop (p : Char → Bool) (l m : List Char) (h : l.dropWhile p ≠ []) :
    (l ++ m).takeWhile p = l.takeWhile p := by
  induction l with
  | nil => simp [List.dropWhile] at h
  | cons c rest ih =>
    by_cases hc : p c
    · rw [List.dropWhile_cons, if_pos hc] at h
      simp [List.takeWhile_cons, hc, ih h]
    · simp [List.takeWhile_cons, hc]

theorem dropWhile_of_takeWhile_nil (p : Char → Bool) (l : List Char)
    (h : l.takeWhile p = []) : l.dropWhile p = l := by
  cases l with
  | nil => rfl
  | cons c rest =>
    rw [List.takeWhile_cons] at h
    by_cases hc : p c
    · simp [hc] at h
    · simp [List.dropWhile_cons, hc]

theorem isPre_append_self (l m : List Char) : isPre l (l ++ m) = true := by
  induction l with
  | nil => rfl
  | cons c rest ih => simp [isPre, ih]

theorem infixAt_of_isPre (b l : List Char) (h : isPre b l = true) : infixAt b l = true := by
  cases l with
  | nil => exact h
  | cons c rest => simp [infixAt, h]

theorem infixAt_append_mid (a b c : List Char) : infixAt b (a ++ (b ++ c)) = true := by
  induction a with
  | nil =>
    apply infixAt_of_isPre
    simpa using isPre_append_self b c
  | cons x xs ih => simp [infixAt, ih]

theorem fallback_shape (env : Env) (q : String) :
    ∃ t, fallbackConversation env q = .ok ⟨t, []⟩ := by
  unfold fallbackConversation
  cases env.conv q with
  | ok t => exact ⟨t, rfl⟩
  | error e => exact ⟨_, rfl⟩

theorem fallback_wf (env : Env) (q : String)
    (hconv : ∀ qq t, env.conv qq = .ok t → t ≠ "") :
    ∃ t, fallbackConversation env q = .ok ⟨t, []⟩ ∧ t ≠ "" := by
  unfold fallbackConversation
  cases hc : env.conv q with
  | ok t => exact ⟨t, rfl, hconv q t hc⟩
  | error e => exact ⟨_, rfl, by decide⟩

theorem getConversationalResponse_ne_empty (q : String) :
    getConversationalResponse q ≠ "" := by
  unfold getConversationalResponse
  split <;> decide

theorem track_wf (env : Env) (n : String)
    (hcfg : pyTruthy env.adminToken = true ∨ pyTruthy env.storeUrl = false) :
    ∃ t, track_order_in_shopify env n = .ok t ∧ t ≠ "" := by
  unfold track_order_in_shopify
  cases hs : pyTruthy env.storeUrl with
  | false => exact ⟨_, rfl, by decide⟩
  | true =>
    have htok : pyTruthy env.adminToken = true := by
      rcases hcfg with h | h
      · exact h
      · rw [h] at hs; cases hs
    have hh : get_admin_api_headers env = .ok () := by
      unfold get_admin_api_headers
      rw [htok]
      rfl
    rw [hh]
    simp only [Bool.not_true, Bool.false_eq_true, if_false]
    cases ho : env.ordersHttp with
    | error e => exact ⟨_, rfl, by decide⟩
    | ok orders =>
      cases orders with
      | nil =>
        exact ⟨_, rfl, append_ne_empty_left _ _ (data_ne_nil_append _ _ (by decide))⟩
      | cons o rest =>
        obtain ⟨fs, fls⟩ := o
        cases fs with
        | none =>
          exact ⟨_, rfl, append_ne_empty_left _ _ (data_ne_nil_append _ _ (by decide))⟩
        | some st =>
          by_cases h1 : st = "fulfilled"
          · subst h1
            exact ⟨_, rfl, append_ne_empty_left _ _ (data_ne_nil_append _ _ (by decide))⟩
          · by_cases h2 : st = "partial"
            · subst h2
              exact ⟨_, rfl, append_ne_empty_left _ _ (data_ne_nil_append _ _ (by decide))⟩
            · refine ⟨"The current status for order #" ++ n ++ " is: " ++ st ++ ".", ?_, ?_⟩
              · show (if st = "fulfilled" then
                      (Except.ok ("Great news! Order #" ++ n ++ " has been fulfilled and is on its way.") : Except PyErr String)
                    else if st = "partial" then
                      Except.ok ("Good news! Part of your order #" ++ n ++ " has been shipped.")
                    else Except.ok ("The current status for order #" ++ n ++ " is: " ++ st ++ ".")) =
                    Except.ok ("The current status for order #" ++ n ++ " is: " ++ st ++ ".")
                rw [if_neg h1, if_neg h2]
              · exact append_ne_empty_left _ _ (data_ne_nil_append _ _
                  (data_ne_nil_append _ _ (data_ne_nil_append _ _ (by decide))))

theorem fetch_wf (env : Env)
    (hcfg : pyTruthy env.adminToken = true ∨ pyTruthy env.storeUrl = false) :
    ∃ l, fetch_shopify_recommendations env = .ok l := by
  unfold fetch_shopify_recommendations
  cases hs : pyTruthy env.storeUrl with
  | false => exact ⟨_, rfl⟩
  | true =>
    have htok : pyTruthy env.adminToken = true := by
      rcases hcfg with h | h
      · exact h
      · rw [h] at hs; cases hs
    have hh : get_admin_api_headers env = .ok () := by
      unfold get_admin_api_headers
      rw [htok]
      rfl
    rw [hh]
    simp only [Bool.not_true, Bool.false_eq_true, if_false]
    cases env.productsHttp with
    | error e => exact ⟨_, rfl⟩
    | ok prods => exact ⟨_, rfl⟩

theorem answerQuestionFromText_ne_empty (d q : String) :
    answerQuestionFromText d q ≠ "" := by
  unfold answerQuestionFromText
  exact append_ne_empty_left _ _ (data_ne_nil_append _ _ (by decide))

/-! ### C1 -/

/-- C1 counterexample: the claim "any failure inside a composer (including a
missing-configuration error raised by a backend helper) is caught" is false.
With the store URL set but the admin token unset, the `ValueError` raised by
`_get_admin_api_headers` is not caught by `fetch_shopify_recommendations`
(whose `except` clause only covers `requests.RequestException`) and escapes
`handle_conversation` on the recommendation path. -/
theorem handle_conversation_raises_on_missing_token :
    handle_conversation envNoToken "recommend a product" "V's Store" =
      .error PyErr.valueError := by
  rfl

/-- C1 (amended): for every query and store name, `handle_conversation`
returns a well-formed ChatResponse (an `Except.ok` record whose text is
non-empty) provided the admin API token is set (or the store URL is unset,
in which case no header is ever built) and the oracles return non-empty
text; without that configuration proviso, the missing-token `ValueError`
escapes on the order-tracking and recommendation paths. -/
theorem handle_conversation_wellformed_of_config (env : Env) (q s : String)
    (hcfg : pyTruthy env.adminToken = true ∨ pyTruthy env.storeUrl = false)
    (hans : ∀ d qq, env.answerQ d qq ≠ "")
    (hconv : ∀ qq t, env.conv qq = .ok t → t ≠ "") :
    ∃ r : ChatResponse, handle_conversation env q s = .ok r ∧ r.text ≠ "" := by
  unfold handle_conversation
  by_cases hg : anyKeyword GREETING_KEYWORDS (normalizeQuery q) = true
  · rw [if_pos hg]
    exact ⟨_, rfl, by decide⟩
  · rw [if_neg hg]
    by_cases ht : anyKeyword ORDER_TRACKING_KEYWORDS (normalizeQuery q) = true
    · rw [if_pos ht]
      cases hx : extractOrderNumber q with
      | none => exact ⟨_, rfl, by decide⟩
      | some oid =>
        obtain ⟨t, htrk, hne⟩ := track_wf env oid hcfg
        show ∃ r : ChatResponse,
          (match track_order_in_shopify env oid with
            | Except.ok status => Except.ok ⟨status, []⟩
            | Except.error e => (Except.error e : Except PyErr ChatResponse)) =
            Except.ok r ∧ r.text ≠ ""
        rw [htrk]
        exact ⟨⟨t, []⟩, rfl, hne⟩
    · rw [if_neg ht]
      by_cases hp : anyKeyword POLICY_KEYWORDS (normalizeQuery q) = true
      · rw [if_pos hp]
        by_cases hd : pyTruthy (get_shopify_page_by_handle env
            (resolvePolicyHandle (normalizeQuery q))) = true
        · rw [if_pos hd]
          exact ⟨_, rfl, hans _ _⟩
        · rw [if_neg hd]
          exact ⟨_, rfl, append_ne_empty_left _ _ (data_ne_nil_append _ _ (by decide))⟩
      · rw [if_neg hp]
        by_cases hr : anyKeyword RECOMMENDATION_KEYWORDS (normalizeQuery q) = true
        · rw [if_pos hr]
          obtain ⟨l, hf⟩ := fetch_wf env hcfg
          rw [hf]
          cases l with
          | nil =>
            show ∃ r : ChatResponse, fallbackConversation env q = .ok r ∧ r.text ≠ ""
            obtain ⟨t, hfb, hne⟩ := fallback_wf env q hconv
            exact ⟨⟨t, []⟩, hfb, hne⟩
          | cons p ptail =>
            exact ⟨_, rfl, append_ne_empty_left _ _ (data_ne_nil_append _ _ (by decide))⟩
        · rw [if_neg hr]
          obtain ⟨t, hfb, hne⟩ := fallback_wf env q hconv
          exact ⟨⟨t, []⟩, hfb, hne⟩

/-- C1 witness: the amended theorem applied to the concrete environment
`envBase` (token set, placeholder oracles) and the query "hello". -/
theorem handle_conversation_wellformed_witness :
    ∃ r : ChatResponse,
      handle_conversation envBase "hello" "V's Store" = .ok r ∧ r.text ≠ "" :=
  handle_conversation_wellformed_of_config envBase "hello" "V's Store"
    (Or.inl (by decide))
    (fun d qq => answerQuestionFromText_ne_empty d qq)
    (fun qq t h => by
      have h2 : Except.ok (getConversationalResponse qq) = Except.ok t := h
      injection h2 with h3
      rw [← h3]
      exact getConversationalResponse_ne_empty qq)

theorem bool_ne_true {b : Bool} (h : b = false) : ¬b = true := by
  rw [h]
  exact Bool.false_ne_true

/-! ### C10 -/

/-- C10: the response of `handle_conversation` does not depend on the
`store_name` argument: with identical backend and oracle behaviour (the same
environment) and the same query, any two store names produce identical
results — no composer reads the parameter. -/
theorem store_name_independent (env : Env) (q s1 s2 : String) :
    handle_conversation env q s1 = handle_conversation env q s2 := rfl

/-! ### C4 -/

/-- C4: every query whose normalized (lowercased, trimmed) form contains a
greeting keyword as a substring gets the fixed greeting text with an empty
products list, regardless of any order-tracking, policy or recommendation
keywords also present: the greeting group is evaluated first. -/
theorem greeting_priority (env : Env) (q s : String)
    (h : anyKeyword GREETING_KEYWORDS (normalizeQuery q) = true) :
    handle_conversation env q s =
      .ok ⟨"Hello! I'm V, your personal shopping assistant. What can I help you find today?", []⟩ := by
  unfold handle_conversation
  rw [if_pos h]

/-- C4 witness: a query containing greeting, order-tracking, policy and
recommendation keywords at once still resolves to the greeting response. -/
theorem greeting_priority_witness :
    anyKeyword GREETING_KEYWORDS
      (normalizeQuery "hi, track order 12345 and the return policy, recommend a product") = true ∧
    handle_conversation envBase
        "hi, track order 12345 and the return policy, recommend a product" "V's Store" =
      .ok ⟨"Hello! I'm V, your personal shopping assistant. What can I help you find today?", []⟩ :=
  ⟨by decide, greeting_priority envBase _ "V's Store" (by decide)⟩

/-! ### C2 -/

/-- C2 counterexample: a Recommendation-intent query with an empty backend
result list is delegated to the general-conversation oracle: two
environments that differ only in that oracle produce different response
texts, so the response is not the claimed fixed "no recommendations right
now" text and the oracle is invoked. -/
theorem empty_recommendations_delegate_counterexample :
    handle_conversation envOracleA "recommend a product" "V's Store" =
      .ok ⟨"oracle reply A", []⟩ ∧
    handle_conversation envOracleB "recommend a product" "V's Store" =
      .ok ⟨"oracle reply B", []⟩ :=
  ⟨rfl, rfl⟩

/-- C2 (amended): when the recommendation branch is reached and the backend
product listing comes back empty, `handle_conversation` falls through to the
general-conversation fallback — the conversational oracle's text, or its
canned apology on oracle failure — always `ok` with an empty products
list. -/
theorem empty_recommendations_fallback (env : Env) (q s : String)
    (hg : anyKeyword GREETING_KEYWORDS (normalizeQuery q) = false)
    (ht : anyKeyword ORDER_TRACKING_KEYWORDS (normalizeQuery q) = false)
    (hp : anyKeyword POLICY_KEYWORDS (normalizeQuery q) = false)
    (hr : anyKeyword RECOMMENDATION_KEYWORDS (normalizeQuery q) = true)
    (hf : fetch_shopify_recommendations env = .ok []) :
    handle_conversation env q s = fallbackConversation env q ∧
    ∃ t, handle_conversation env q s = .ok ⟨t, []⟩ := by
  have heq : handle_conversation env q s = fallbackConversation env q := by
    unfold handle_conversation
    rw [if_neg (bool_ne_true hg), if_neg (bool_ne_true ht), if_neg (bool_ne_true hp),
      if_pos hr, hf]
  exact ⟨heq, by rw [heq]; exact fallback_shape env q⟩

/-- C2 witness: the amended theorem at the concrete environment `envBase`
(whose product listing is empty) and the query "recommend a product". -/
theorem empty_recommendations_fallback_witness :
    handle_conversation envBase "recommend a product" "V's Store" =
      fallbackConversation envBase "recommend a product" ∧
    ∃ t, handle_conversation envBase "recommend a product" "V's Store" = .ok ⟨t, []⟩ :=
  empty_recommendations_fallback envBase "recommend a product" "V's Store"
    (by decide) (by decide) (by decide) (by decide) rfl

/-! ### C5 -/

/-- C5 counterexample: the classifier has no connect-to-human keyword group;
the query "connect me to a human" is answered by the conversational oracle
(two environments differing only in that oracle give different texts), not
by a fixed canned ConnectHuman text. -/
theorem connect_human_counterexample :
    handle_conversation envOracleA "connect me to a human" "V's Store" =
      .ok ⟨"oracle reply A", []⟩ ∧
    handle_conversation envOracleB "connect me to a human" "V's Store" =
      .ok ⟨"oracle reply B", []⟩ :=
  ⟨rfl, rfl⟩

/-- C5 (amended): a query matching none of the four keyword groups — in
particular connect-to-human phrasings, for which no rule group exists — is
delegated to the fallback-conversation composer, whose result is always `ok`
with an empty products list. -/
theorem connect_human_fallback (env : Env) (q s : String)
    (hg : anyKeyword GREETING_KEYWORDS (normalizeQuery q) = false)
    (ht : anyKeyword ORDER_TRACKING_KEYWORDS (normalizeQuery q) = false)
    (hp : anyKeyword POLICY_KEYWORDS (normalizeQuery q) = false)
    (hr : anyKeyword RECOMMENDATION_KEYWORDS (normalizeQuery q) = false) :
    handle_conversation env q s = fallbackConversation env q ∧
    ∃ t, handle_conversation env q s = .ok ⟨t, []⟩ := by
  have heq : handle_conversation env q s = fallbackConversation env q := by
    unfold handle_conversation
    rw [if_neg (bool_ne_true hg), if_neg (bool_ne_true ht), if_neg (bool_ne_true hp),
      if_neg (bool_ne_true hr)]
  exact ⟨heq, by rw [heq]; exact fallback_shape env q⟩

/-- C5 witness: the amended theorem at `envBase` and the query
"connect me to a human". -/
theorem connect_human_fallback_witness :
    handle_conversation envBase "connect me to a human" "V's Store" =
      fallbackConversation envBase "connect me to a human" ∧
    ∃ t, handle_conversation envBase "connect me to a human" "V's Store" = .ok ⟨t, []⟩ :=
  connect_human_fallback envBase "connect me to a human" "V's Store"
    (by decide) (by decide) (by decide) (by decide)

/-! ### C3 -/

/-- C3 counterexample: the backend returns a fulfilled order together with a
tracking URL, yet the composed text is the fixed fulfilled sentence, which
does not contain that URL (`track_order_in_shopify` never reads the
`fulfillments` array). -/
theorem fulfilled_tracking_url_absent :
    handle_conversation envBase "track order 10234" "V's Store" =
      .ok ⟨"Great news! Order #10234 has been fulfilled and is on its way.", []⟩ ∧
    envBase.ordersHttp =
      .ok [⟨some "fulfilled", [⟨some "https://track.example/10234"⟩]⟩] ∧
    containsSub "Great news! Order #10234 has been fulfilled and is on its way."
      "https://track.example/10234" = false :=
  ⟨rfl, rfl, by decide⟩

/-- C3 (amended): whenever the order-tracking branch runs with an extracted
order number and the backend's first order is fulfilled, the response text
is the fixed sentence containing the order number; any tracking URL the
backend supplied in the `fulfillments` array is ignored. -/
theorem fulfilled_fixed_text (env : Env) (q s n : String)
    (fls : List Fulfillment) (rest : List Order)
    (hg : anyKeyword GREETING_KEYWORDS (normalizeQuery q) = false)
    (ht : anyKeyword ORDER_TRACKING_KEYWORDS (normalizeQuery q) = true)
    (hx : extractOrderNumber q = some n)
    (hsu : pyTruthy env.storeUrl = true)
    (htok : pyTruthy env.adminToken = true)
    (ho : env.ordersHttp = .ok (⟨some "fulfilled", fls⟩ :: rest)) :
    handle_conversation env q s =
      .ok ⟨"Great news! Order #" ++ n ++ " has been fulfilled and is on its way.", []⟩ := by
  have hh : get_admin_api_headers env = .ok () := by
    unfold get_admin_api_headers
    rw [htok]
    rfl
  have htr : track_order_in_shopify env n =
      .ok ("Great news! Order #" ++ n ++ " has been fulfilled and is on its way.") := by
    unfold track_order_in_shopify
    rw [hsu]
    simp only [Bool.not_true, Bool.false_eq_true, if_false]
    rw [hh, ho]
    rfl
  unfold handle_conversation
  rw [if_neg (bool_ne_true hg), if_pos ht, hx]
  show (match track_order_in_shopify env n with
      | Except.ok status => (Except.ok ⟨status, []⟩ : Except PyErr ChatResponse)
      | Except.error e => Except.error e) =
    Except.ok ⟨"Great news! Order #" ++ n ++ " has been fulfilled and is on its way.", []⟩
  rw [htr]

/-- C3 witness: the amended theorem at `envBase` (fulfilled order whose
payload carries a tracking URL) and the query "track order 10234". -/
theorem fulfilled_fixed_text_witness :
    handle_conversation envBase "track order 10234" "V's Store" =
      .ok ⟨"Great news! Order #" ++ "10234" ++ " has been fulfilled and is on its way.", []⟩ :=
  fulfilled_fixed_text envBase "track order 10234" "V's Store" "10234"
    [⟨some "https://track.example/10234"⟩] [] (by decide) (by decide) rfl
    (by decide) (by decide) rfl

/-! ### C7 -/

/-- C7: for the policy branch, the resolved topic key is "shipping-policy"
exactly when the normalized query contains "shipping" or "frakt", and
"return-policy" otherwise. -/
theorem resolve_policy_topic (ql : String) :
    (resolvePolicyHandle ql = "shipping-policy" ↔
      (containsSub ql "shipping" || containsSub ql "frakt") = true) ∧
    (resolvePolicyHandle ql = "return-policy" ↔
      (containsSub ql "shipping" || containsSub ql "frakt") = false) := by
  unfold resolvePolicyHandle
  cases h : (containsSub ql "shipping" || containsSub ql "frakt") with
  | true => decide
  | false => decide

/-- C7 witness: the query "what's your frakt policy" resolves to the
shipping topic. -/
theorem resolve_policy_topic_witness :
    resolvePolicyHandle (normalizeQuery "what's your frakt policy") = "shipping-policy" :=
  (resolve_policy_topic (normalizeQuery "what's your frakt policy")).1.mpr (by decide)

/-! ### C8 -/

/-- C8: for a policy-intent query whose document lookup yields no truthy
page for the resolved topic, the response is a fixed sentence that mentions
the topic (dashes rendered as spaces) with an empty products list; the two
language-model oracles are universally quantified and the result does not
depend on them, so neither is invoked. -/
theorem policy_not_found_response (env : Env) (q s : String)
    (f : String → String → String) (g : String → Except Unit String)
    (hg : anyKeyword GREETING_KEYWORDS (normalizeQuery q) = false)
    (ht : anyKeyword ORDER_TRACKING_KEYWORDS (normalizeQuery q) = false)
    (hp : anyKeyword POLICY_KEYWORDS (normalizeQuery q) = true)
    (hd : pyTruthy (get_shopify_page_by_handle env
        (resolvePolicyHandle (normalizeQuery q))) = false) :
    handle_conversation { env with answerQ := f, conv := g } q s =
      .ok ⟨"I couldn't find the specific details for our " ++
          dashToSpace (resolvePolicyHandle (normalizeQuery q)) ++ ".", []⟩ ∧
    containsSub ("I couldn't find the specific details for our " ++
        dashToSpace (resolvePolicyHandle (normalizeQuery q)) ++ ".")
      (dashToSpace (resolvePolicyHandle (normalizeQuery q))) = true := by
  constructor
  · have hd2 : pyTruthy (get_shopify_page_by_handle { env with answerQ := f, conv := g }
        (resolvePolicyHandle (normalizeQuery q))) = false := hd
    unfold handle_conversation
    rw [if_neg (bool_ne_true hg), if_neg (bool_ne_true ht), if_pos hp,
      if_neg (bool_ne_true hd2)]
  · unfold containsSub
    rw [String.data_append, String.data_append, List.append_assoc]
    exact infixAt_append_mid _ _ _

/-- C8 witness: `envBase` has no pages, so the topic resolved from
"return policy question" is not found and the fixed sentence is returned. -/
theorem policy_not_found_witness :
    handle_conversation { envBase with
        answerQ := fun d q => answerQuestionFromText d q,
        conv := fun q => .ok (getConversationalResponse q) }
      "return policy question" "V's Store" =
      .ok ⟨"I couldn't find the specific details for our " ++
          dashToSpace (resolvePolicyHandle (normalizeQuery "return policy question")) ++ ".", []⟩ :=
  (policy_not_found_response envBase "return policy question" "V's Store"
    (fun d q => answerQuestionFromText d q) (fun q => .ok (getConversationalResponse q))
    (by decide) (by decide) (by decide) rfl).1

theorem allRunsShort_head {c : Char} {rest : List Char} (h : allRunsShort (c :: rest) = true) :
    ((c :: rest).takeWhile Char.isDigit).length < 4 ∧ allRunsShort rest = true := by
  unfold allRunsShort at h
  simp only [Bool.and_eq_true, decide_eq_true_eq] at h
  exact h

theorem reSearch_of_allRunsShort : ∀ l, allRunsShort l = true → reSearchDigits4 l = none := by
  intro l
  induction l with
  | nil => intro _; rfl
  | cons c rest ih =>
    intro h
    obtain ⟨h1, h2⟩ := allRunsShort_head h
    unfold reSearchDigits4
    rw [if_neg (by omega)]
    exact ih h2

theorem reSearch_finds_run (d post : List Char) (hd : d.all Char.isDigit = true)
    (hlen : 4 ≤ d.length) (hpost : post.takeWhile Char.isDigit = []) :
    ∀ pre, allRunsShort pre = true → lastNonDigit pre = true →
      reSearchDigits4 (pre ++ (d ++ post)) = some d := by
  intro pre
  induction pre with
  | nil =>
    intro _ _
    cases d with
    | nil => simp at hlen
    | cons c dtail =>
      have htw : ((c :: dtail) ++ post).takeWhile Char.isDigit = c :: dtail := by
        rw [takeWhile_append_all Char.isDigit (c :: dtail) post hd, hpost, List.append_nil]
      rw [List.nil_append, List.cons_append]
      rw [List.cons_append] at htw
      unfold reSearchDigits4
      rw [htw, if_pos hlen]
  | cons x pre' ih =>
    intro hall hlast
    obtain ⟨h1, h2⟩ := allRunsShort_head hall
    have hlast' : lastNonDigit pre' = true := by
      cases pre' with
      | nil => rfl
      | cons y ys =>
        unfold lastNonDigit at hlast ⊢
        rw [List.getLast?_cons_cons] at hlast
        exact hlast
    rw [List.cons_append]
    unfold reSearchDigits4
    by_cases hx : x.isDigit = true
    · have hpre' : pre' ≠ [] := by
        intro hnil
        subst hnil
        unfold lastNonDigit at hlast
        rw [List.getLast?_singleton] at hlast
        simp [hx] at hlast
      have hdrop : pre'.dropWhile Char.isDigit ≠ [] := by
        intro hdw
        have hallp := List.dropWhile_eq_nil_iff.mp hdw
        cases hgl : pre'.getLast? with
        | none => exact hpre' (List.getLast?_eq_none_iff.mp hgl)
        | some y =>
          have hy := hallp y (List.mem_of_mem_getLast? hgl)
          unfold lastNonDigit at hlast'
          rw [hgl] at hlast'
          simp [hy] at hlast'
      have hxdrop : (x :: pre').dropWhile Char.isDigit ≠ [] := by
        rw [List.dropWhile_cons, if_pos hx]
        exact hdrop
      have htw : ((x :: pre') ++ (d ++ post)).takeWhile Char.isDigit =
          (x :: pre').takeWhile Char.isDigit :=
        takeWhile_append_stop Char.isDigit (x :: pre') (d ++ post) hxdrop
      rw [List.cons_append] at htw
      rw [htw, if_neg (by omega)]
      exact ih h2 hlast'
    · have hx' : x.isDigit = false := by
        cases hxx : x.isDigit with
        | false => rfl
        | true => exact absurd hxx hx
      have htw0 : (x :: (pre' ++ (d ++ post))).takeWhile Char.isDigit = [] := by
        rw [List.takeWhile_cons, hx']
        simp
      rw [htw0, if_neg (by simp)]
      exact ih h2 hlast'

/-! ### C6 -/

/-- C6: (1) whenever the raw query splits as `pre ++ d ++ post` where `d` is
the first maximal run of four or more consecutive decimal digits (no
position of `pre` starts such a run, `pre` does not end in a digit, `post`
does not start with one), the extraction returns exactly `d` — which, being
all digits, contains no leading `#` (a `#` immediately before the run stays
in `pre`); (2) when no four-digit run exists the extraction returns none;
(3) on the order-tracking branch the extracted string is exactly the one
passed to the order lookup. -/
theorem extract_order_number_spec :
    (∀ (q : String) (pre d post : List Char),
      q.data = pre ++ (d ++ post) →
      allRunsShort pre = true →
      lastNonDigit pre = true →
      d.all Char.isDigit = true →
      4 ≤ d.length →
      post.takeWhile Char.isDigit = [] →
      extractOrderNumber q = some ⟨d⟩ ∧ d.all (fun c => !(c = '#')) = true) ∧
    (∀ q : String, allRunsShort q.data = true → extractOrderNumber q = none) ∧
    (∀ (env : Env) (q s n : String),
      anyKeyword GREETING_KEYWORDS (normalizeQuery q) = false →
      anyKeyword ORDER_TRACKING_KEYWORDS (normalizeQuery q) = true →
      extractOrderNumber q = some n →
      handle_conversation env q s =
        (track_order_in_shopify env n).map fun t => ⟨t, []⟩) := by
  refine ⟨?_, ?_, ?_⟩
  · intro q pre d post hq hall hlast hd hlen hpost
    constructor
    · unfold extractOrderNumber
      rw [hq, reSearch_finds_run d post hd hlen hpost pre hall hlast]
      rfl
    · rw [List.all_eq_true] at hd ⊢
      intro c hc
      have hcd := hd c hc
      have hne : c ≠ '#' := by
        intro he
        subst he
        exact absurd hcd (by decide)
      simp [hne]
  · intro q h
    unfold extractOrderNumber
    rw [reSearch_of_allRunsShort q.data h]
    rfl
  · intro env q s n hg ht hx
    unfold handle_conversation
    rw [if_neg (bool_ne_true hg), if_pos ht, hx]
    show (match track_order_in_shopify env n with
        | Except.ok status => (Except.ok ⟨status, []⟩ : Except PyErr ChatResponse)
        | Except.error e => Except.error e) =
      (track_order_in_shopify env n).map fun t => ⟨t, []⟩
    cases track_order_in_shopify env n with
    | ok t => rfl
    | error e => rfl

/-- C6 witness: "Where is my order #48213?" yields "48213" (leading #
excluded), a query without a four-digit run yields none, and the extracted
string is the one passed to the order lookup. -/
theorem extract_order_number_witness :
    extractOrderNumber "Where is my order #48213?" = some "48213" ∧
    extractOrderNumber "track my order please" = none ∧
    handle_conversation envBase "Where is my order #48213?" "V's Store" =
      (track_order_in_shopify envBase "48213").map fun t => ⟨t, []⟩ := by
  refine ⟨?_, ?_, ?_⟩
  · exact (extract_order_number_spec.1 "Where is my order #48213?"
      ("Where is my order #".data) ("48213".data) ("?".data)
      (by decide) (by decide) (by decide) (by decide) (by decide) (by decide)).1
  · exact extract_order_number_spec.2.1 "track my order please" (by decide)
  · exact extract_order_number_spec.2.2 envBase "Where is my order #48213?" "V's Store"
      "48213" (by decide) (by decide) (by decide)

/-! ### clean_html lemmas -/

theorem subTags_nil : subTags [] = [] := by rw [subTags]

theorem subTags_cons_ne (c : Char) (rest : List Char) (h : ¬c = '<') :
    subTags (c :: rest) = c :: subTags rest := by
  rw [subTags]
  rw [if_neg h]

theorem subTags_cons_lt (rest r : List Char) (h : tagBody rest = some r) :
    subTags ('<' :: rest) = subTags r := by
  rw [subTags]
  rw [if_pos rfl]
  split
  · next rest2 heq =>
    rw [h] at heq
    injection heq with heq
    rw [heq]
  · next heq =>
    rw [h] at heq
    cases heq

theorem subTags_no_lt (l : List Char) (h : l.all (fun c => !(c = '<')) = true) :
    subTags l = l := by
  induction l with
  | nil => exact subTags_nil
  | cons c rest ih =>
    rw [List.all_cons, Bool.and_eq_true] at h
    rw [subTags_cons_ne c rest (by simpa using h.1), ih h.2]

theorem subTags_append_no_lt (l m : List Char)
    (h : l.all (fun c => !(c = '<')) = true) :
    subTags (l ++ m) = l ++ subTags m := by
  induction l with
  | nil => simp
  | cons c rest ih =>
    rw [List.all_cons, Bool.and_eq_true] at h
    rw [List.cons_append, subTags_cons_ne c _ (by simpa using h.1), ih h.2, List.cons_append]

theorem tagBodyGo_through (body rest : List Char) (h : body.all tagChar = true) :
    tagBodyGo (body ++ ('>' :: rest)) = some rest := by
  induction body with
  | nil => rfl
  | cons c cs ih =>
    rw [List.all_cons, Bool.and_eq_true] at h
    have hc := h.1
    unfold tagChar at hc
    simp only [Bool.not_eq_true', Bool.or_eq_false_iff, decide_eq_false_iff_not] at hc
    rw [List.cons_append]
    simp only [tagBodyGo]
    rw [if_neg hc.2, if_neg hc.1]
    exact ih h.2

theorem tagBody_tag (body rest : List Char) (hne : body ≠ [])
    (h : body.all tagChar = true) : tagBody (body ++ ('>' :: rest)) = some rest := by
  cases body with
  | nil => exact absurd rfl hne
  | cons c cs =>
    rw [List.all_cons, Bool.and_eq_true] at h
    have hc := h.1
    unfold tagChar at hc
    simp only [Bool.not_eq_true', Bool.or_eq_false_iff, decide_eq_false_iff_not] at hc
    rw [List.cons_append]
    simp only [tagBody]
    rw [if_neg hc.1]
    exact tagBodyGo_through cs rest h.2

theorem subTags_tag (body rest : List Char) (hne : body ≠ [])
    (h : body.all tagChar = true) :
    subTags ('<' :: (body ++ ('>' :: rest))) = subTags rest :=
  subTags_cons_lt _ rest (tagBody_tag body rest hne h)

theorem pyStrip_id (s : String) (h1 : s.data.takeWhile pySpace = [])
    (h2 : s.data.reverse.takeWhile pySpace = []) : pyStrip s = s := by
  unfold pyStrip
  rw [dropWhile_of_takeWhile_nil pySpace s.data h1,
    dropWhile_of_takeWhile_nil pySpace s.data.reverse h2,
    List.reverse_reverse]

/-! ### C9 -/

/-- C9 counterexample: `clean_html` is not the identity on tag-free input:
the string " hello " contains no angle bracket at all, yet `clean_html`
returns "hello" (the trailing `.strip()` removes the surrounding
whitespace). -/
theorem clean_html_not_identity :
    (" hello ").data.all (fun c => !(c = '<' || c = '>')) = true ∧
    cleanHtml " hello " = "hello" ∧
    (" hello " : String) ≠ "hello" := by
  refine ⟨by decide, ?_, by decide⟩
  show pyStrip ⟨subTags (" hello ").data⟩ = "hello"
  rw [subTags_no_lt _ (by decide)]
  rfl

/-- C9 (amended): `clean_html` strips leading and trailing whitespace, and
apart from that is the identity on input with no `<` character: for every
string with no `<` and no leading or trailing whitespace it returns the
input unchanged; and for every doubly-nested tag sequence
`<a><b>text</b></a>` (non-empty tag bodies without angle brackets, `text`
without `<`) it removes all tag markers and returns the enclosed text,
whitespace-stripped. -/
theorem clean_html_amended :
    (∀ s : String, s.data.all (fun c => !(c = '<')) = true →
      s.data.takeWhile pySpace = [] →
      s.data.reverse.takeWhile pySpace = [] →
      cleanHtml s = s) ∧
    (∀ a b text : String, a.data ≠ [] → a.data.all tagChar = true →
      b.data ≠ [] → b.data.all tagChar = true →
      text.data.all (fun c => !(c = '<')) = true →
      cleanHtml ("<" ++ a ++ "><" ++ b ++ ">" ++ text ++ "</" ++ b ++ "></" ++ a ++ ">") =
        pyStrip text) := by
  constructor
  · intro s h h1 h2
    show pyStrip ⟨subTags s.data⟩ = s
    rw [subTags_no_lt s.data h]
    exact pyStrip_id s h1 h2
  · intro a b text ha1 ha2 hb1 hb2 htext
    show pyStrip
        ⟨subTags ("<" ++ a ++ "><" ++ b ++ ">" ++ text ++ "</" ++ b ++ "></" ++ a ++ ">").data⟩ =
      pyStrip text
    have e1 : ("<" : String).data = ['<'] := rfl
    have e2 : ("><" : String).data = ['>', '<'] := rfl
    have e3 : (">" : String).data = ['>'] := rfl
    have e4 : ("</" : String).data = ['<', '/'] := rfl
    have e5 : ("></" : String).data = ['>', '<', '/'] := rfl
    have hdata : ("<" ++ a ++ "><" ++ b ++ ">" ++ text ++ "</" ++ b ++ "></" ++ a ++ ">").data =
        '<' :: (a.data ++ ('>' :: ('<' :: (b.data ++ ('>' :: (text.data ++
          ('<' :: (('/' :: b.data) ++ ('>' :: ('<' :: (('/' :: a.data) ++
            ('>' :: ([] : List Char))))))))))))) := by
      simp [String.data_append, e1, e2, e3, e4, e5]
    rw [hdata]
    rw [subTags_tag a.data _ ha1 ha2]
    rw [subTags_tag b.data _ hb1 hb2]
    rw [subTags_append_no_lt text.data _ htext]
    rw [subTags_tag ('/' :: b.data) _ (List.cons_ne_nil '/' b.data)
      (by rw [List.all_cons, Bool.and_eq_true]; exact ⟨by decide, hb2⟩)]
    rw [subTags_tag ('/' :: a.data) _ (List.cons_ne_nil '/' a.data)
      (by rw [List.all_cons, Bool.and_eq_true]; exact ⟨by decide, ha2⟩)]
    rw [subTags_nil, List.append_nil]

/-- C9 witness: the amended theorem at the tag-free string "hello" and at
the doubly-nested sequence "<div><p>hello</p></div>". -/
theorem clean_html_amended_witness :
    cleanHtml "hello" = "hello" ∧
    cleanHtml "<div><p>hello</p></div>" = "hello" := by
  constructor
  · exact clean_html_amended.1 "hello" (by decide) (by decide) (by decide)
  · exact clean_html_amended.2 "div" "p" "hello" (by decide) (by decide)
      (by decide) (by decide) (by decide)

end Elg
